import Mathlib

/-!
# Verification of the photo-counting Telegram bot (`src/bot.py`)

A shallow embedding of the bot's core: the SQLite photo-event store, the
leaderboard aggregate query, the two-state period dialog, the onboarding
flag, and the startup schema migration.  Handlers are modelled as pure
functions over explicit state; the catch-all `except` blocks of the Python
code are modelled by the handlers being total functions whose outputs list
the messages actually sent.
-/

/-- A row of the `photos` table.  `chat_id` is `Option Int` because the
column is added by the startup migration with no default, so rows written
before the migration hold SQL `NULL` (`none`). -/
structure PhotoRow where
  chat_id : Option Int
  user_id : Int
  timestamp : Int
deriving DecidableEq, Repr

/-- The `photos` table: an append-only list of rows, in insertion order. -/
abbrev Store := List PhotoRow

/-- `photo_handler`'s INSERT: append one row with a non-NULL chat id
(`INSERT INTO photos (chat_id, user_id, timestamp) VALUES (?, ?, ?)`). -/
def recordPhoto (s : Store) (chatId userId ts : Int) : Store :=
  s ++ [⟨some chatId, userId, ts⟩]

/-- A store built by a sequence of `recordPhoto` calls
(chatId, userId, timestamp) starting from the empty table. -/
def buildStore (evs : List (Int × Int × Int)) : Store :=
  evs.foldl (fun s e => recordPhoto s e.1 e.2.1 e.2.2) []

/-- The `WHERE chat_id = ? AND timestamp >= ?` filter.  SQL three-valued
logic: `NULL = ?` is not true, so a `NULL` `chat_id` never matches. -/
def rowMatches (chatId since : Int) (r : PhotoRow) : Bool :=
  r.chat_id == some chatId && since ≤ r.timestamp

/-- Rows selected by the WHERE clause of the aggregate in `process_period`. -/
def matchingRows (s : Store) (chatId since : Int) : List PhotoRow :=
  s.filter (rowMatches chatId since)

/-- `COUNT(*)` for one user's group: the number of stored events of that
user matching the chat and time window. -/
def countFor (s : Store) (chatId since uid : Int) : Nat :=
  (matchingRows s chatId since).countP (fun r => decide (r.user_id = uid))

/-- The ascending order on group keys used by `GROUP BY user_id`. -/
def intLe (a b : Int) : Bool := decide (a ≤ b)

/-- The `ORDER BY count DESC` comparison on `(user_id, count)` rows. -/
def countDescLe (a b : Int × Nat) : Bool := decide (b.2 ≤ a.2)

/-- The distinct `user_id`s of the matching rows in ascending order:
SQLite's `GROUP BY user_id` (no covering index) emits one group per
distinct key, in ascending key order (temporary b-tree). -/
def usersAsc (s : Store) (chatId since : Int) : List Int :=
  (((matchingRows s chatId since).map (·.user_id)).dedup).mergeSort intLe

/-- The full aggregate of `process_period`:
`SELECT user_id, COUNT(*) AS count FROM photos WHERE chat_id = ? AND
timestamp >= ? GROUP BY user_id ORDER BY count DESC LIMIT n`.
Groups are produced in ascending `user_id` order and then stably sorted by
count descending, so ties keep ascending `user_id` order. -/
def topUsers (s : Store) (chatId since : Int) (limit : Nat) : List (Int × Nat) :=
  (((usersAsc s chatId since).map (fun u => (u, countFor s chatId since u))).mergeSort
    countDescLe).take limit

/-- Checks one run of Python's integer-literal digit grammar after the
first digit: digits with single underscores strictly between digits. -/
def pyDigitsTail : List Char → Bool
  | [] => true
  | ['_'] => false
  | '_' :: c :: rest => c.isDigit && pyDigitsTail rest
  | c :: rest => c.isDigit && pyDigitsTail rest

/-- Python's integer-literal digit grammar: nonempty, ASCII digits, single
underscores only between digits. -/
def pyDigits : List Char → Bool
  | [] => false
  | c :: rest => c.isDigit && pyDigitsTail rest

/-- Numeric value of a digit run, ignoring the grouping underscores. -/
def digitsVal (l : List Char) : Nat :=
  (l.filter (fun c => decide (c ≠ '_'))).foldl (fun n c => 10 * n + (c.toNat - 48)) 0

/-- Python's `int(text)` on the dialog reply: surrounding whitespace is
stripped, an optional single `+`/`-` sign precedes the digits; any other
shape raises `ValueError`, modelled as `none`.  (Non-ASCII decimal digits,
which CPython also accepts, are out of scope of the model.) -/
def pythonInt (s : String) : Option Int :=
  let l := ((s.toList.dropWhile (·.isWhitespace)).reverse.dropWhile (·.isWhitespace)).reverse
  match l with
  | [] => none
  | c :: rest =>
    if c = '-' then
      if pyDigits rest then some (-(digitsVal rest : Int)) else none
    else if c = '+' then
      if pyDigits rest then some (digitsVal rest : Int) else none
    else
      if pyDigits l then some (digitsVal l : Int) else none

/-- The messages the bot can send, one constructor per `reply_text` call
site of `src/bot.py`. -/
inductive Msg where
  /-- "Введите период в дней для анализа:" — the `/top` prompt. -/
  | periodPrompt
  /-- "Период должен быть больше 0 дней" -/
  | periodNotPositive
  /-- "❌ Введите корректное число дней" — the `ValueError` reply. -/
  | invalidNumber
  /-- "📭 За последние {d} дней фото не отправлялись" -/
  | noPhotos (days : Int)
  /-- "🏆 Топ участников за {d} дней:" followed by the numbered entries
  `(rank, display name, count)`. -/
  | leaderboard (days : Int) (entries : List (Nat × String × Nat))
  /-- "⚠️ Произошла ошибка при обработке запроса" — the catch-all reply. -/
  | genericError
  /-- "Привет! Я буду отслеживать количество отправленных фото..." -/
  | startFirst
  /-- "Привет! Я уже отслеживаю количество отправленных фото..." -/
  | startAgain
  /-- "🚫 Операция отменена" — the `/cancel` reply. -/
  | cancelAck
deriving DecidableEq, Repr

/-- The two states of the period dialog: `idle` is `ConversationHandler.END`
(no conversation entry), `awaitingPeriod` is the `PERIOD_REQUEST` state. -/
inductive ConvState where
  | idle
  | awaitingPeriod
deriving DecidableEq, Repr

/-- `get_chat_member` name resolution: `nr uid = some name` resolves, `none`
models the per-user lookup raising; `process_period` then substitutes the
fallback label "Пользователь {uid}". -/
def resolveName (nr : Int → Option String) (uid : Int) : String :=
  match nr uid with
  | some n => n
  | none => "Пользователь " ++ toString uid

/-- Outcome of one `process_period` invocation: the replies sent, the value
returned to the `ConversationHandler`, and whether the store was queried. -/
structure PeriodResult where
  messages : List Msg
  next : ConvState
  storeQueried : Bool
deriving DecidableEq, Repr

/-- `process_period(update, context)`, the `PERIOD_REQUEST` handler.
`storeFails` models the SELECT raising a storage error, which the generic
`except Exception` catches (reply "⚠️ …", fall through to `END`);
`ValueError` from `int(text)` is the `pythonInt text = none` branch
(reply "❌ …", `return PERIOD_REQUEST`); `period_days <= 0` replies and
returns `PERIOD_REQUEST`.  `time_threshold = now - days * 86400`
(`timedelta(days=d)` is exactly `86400 * d` seconds). -/
def process_period (store : Store) (storeFails : Bool) (nr : Int → Option String)
    (chatId now : Int) (text : String) : PeriodResult :=
  match pythonInt text with
  | none => ⟨[Msg.invalidNumber], ConvState.awaitingPeriod, false⟩
  | some d =>
    if d ≤ 0 then ⟨[Msg.periodNotPositive], ConvState.awaitingPeriod, false⟩
    else if storeFails then ⟨[Msg.genericError], ConvState.idle, true⟩
    else
      let top := topUsers store chatId (now - d * 86400) 5
      if top.isEmpty then ⟨[Msg.noPhotos d], ConvState.idle, true⟩
      else
        ⟨[Msg.leaderboard d (top.enum.map (fun p =>
            (p.1 + 1, resolveName nr p.2.1, p.2.2)))],
          ConvState.idle, true⟩

/-- Outcome of `photo_handler`: replies sent and the store after the call. -/
structure PhotoResult where
  messages : List Msg
  store : Store
deriving DecidableEq, Repr

/-- `photo_handler(update, context)`: bot senders are skipped; otherwise the
event is inserted.  `insertFails` models the INSERT/commit raising: the
handler's own `except Exception` catches it and only logs — no reply is
sent and no row is stored. -/
def photo_handler (store : Store) (insertFails isBot : Bool)
    (chatId userId now : Int) : PhotoResult :=
  if isBot then ⟨[], store⟩
  else if insertFails then ⟨[], store⟩
  else ⟨[], recordPhoto store chatId userId now⟩

/-- The `start_executed` dict, chat id → flag, as an association list. -/
abbrev StartFlags := List (Int × Bool)

/-- Write `d[c] = b` (replace an existing binding or append). -/
def dictSet (d : StartFlags) (c : Int) (b : Bool) : StartFlags :=
  match d with
  | [] => [(c, b)]
  | (k, v) :: rest => if k = c then (c, b) :: rest else (k, v) :: dictSet rest c b

/-- Read `d[c]` (`none` models `chat_id not in start_executed`). -/
def dictGet (d : StartFlags) (c : Int) : Option Bool :=
  match d with
  | [] => none
  | (k, v) :: rest => if k = c then some v else dictGet rest c

/-- `start(update, context)`: if the chat is absent from `start_executed`
it is first set to `False`; a false flag sends the first greeting and sets
the flag; a true flag sends the already-tracking greeting. -/
def startHandler (d : StartFlags) (chatId : Int) : Msg × StartFlags :=
  let d0 := match dictGet d chatId with
    | none => dictSet d chatId false
    | some _ => d
  match dictGet d0 chatId with
  | some true => (Msg.startAgain, d0)
  | _ => (Msg.startFirst, dictSet d0 chatId true)

/-- The messages `startFirst` messages chat `c` receives over a run. -/
def runStarts (d : StartFlags) (cs : List Int) : List (Int × Msg) :=
  match cs with
  | [] => []
  | c :: rest =>
    let r := startHandler d c
    (c, r.1) :: runStarts r.2 rest

/-- Schema migration step run at module load (before any handler):
`PRAGMA table_info(photos)` lists the columns and
`ALTER TABLE photos ADD COLUMN chat_id INTEGER` runs only when `chat_id`
is absent. -/
def migrateCols (cols : List String) : List String :=
  if "chat_id" ∈ cols then cols else cols ++ ["chat_id"]

/-- The startup migration over the table state (`none` = `photos` does not
exist, in which case the `ALTER TABLE` raises `OperationalError`). -/
def migrateStartup : Option (List String) → Except Unit (Option (List String))
  | none => Except.error ()
  | some cols => Except.ok (some (migrateCols cols))

/-- An update delivered to the dispatcher for one chat. -/
inductive Upd where
  | cmdStart
  | cmdTop
  | cmdCancel
  | text (s : String)
  | photo (isBot : Bool)

/-- The `ConversationHandler`'s conversation dict.  With `per_chat` and
`per_user` both left at their default `True`, conversations are keyed by
the (chat id, user id) pair of the update's sender; an absent key means no
active conversation (`idle`), and a handler returning
`ConversationHandler.END` removes the key. -/
abbrev ConvMap := List ((Int × Int) × ConvState)

/-- State of the (chat, user) key; absent keys are `idle`. -/
def convGet (m : ConvMap) (k : Int × Int) : ConvState :=
  match m with
  | [] => ConvState.idle
  | (k', s) :: rest => if k' = k then s else convGet rest k

/-- Store a conversation state under a (chat, user) key (`idle` models the
key's removal on `END`, since absent keys read as `idle`). -/
def convSet (m : ConvMap) (k : Int × Int) (s : ConvState) : ConvMap :=
  match m with
  | [] => [(k, s)]
  | (k', s') :: rest =>
    if k' = k then (k, s) :: rest else (k', s') :: convSet rest k s

/-- One step of the python-telegram-bot dispatcher, with the handlers
registered in `main` (group 0, in order: `CommandHandler("start")`, the
`ConversationHandler` with entry point `/top`, state `PERIOD_REQUEST`
handling `TEXT & ~COMMAND`, fallback `/cancel`, and `allow_reentry`,
`per_chat`, `per_user` left at their defaults, then
`MessageHandler(filters.PHOTO)`).  `chatId`/`userId` identify the update's
chat and sender, which key the conversation lookup.  While a sender's own
conversation is active its entry points are not checked, so that sender's
`/top` matches no handler and is dropped; a different sender's `/top` in
the same chat finds no conversation under its own key and opens one. -/
def dispatch (conv : ConvMap) (flags : StartFlags) (store : Store)
    (storeFails : Bool) (nr : Int → Option String) (chatId userId now : Int)
    (u : Upd) : ConvMap × StartFlags × Store × List Msg :=
  match u with
  | .cmdStart =>
    let r := startHandler flags chatId
    (conv, r.2, store, [r.1])
  | .cmdTop =>
    match convGet conv (chatId, userId) with
    | .idle =>
      (convSet conv (chatId, userId) ConvState.awaitingPeriod, flags, store,
        [Msg.periodPrompt])
    | .awaitingPeriod => (conv, flags, store, [])
  | .cmdCancel =>
    match convGet conv (chatId, userId) with
    | .idle => (conv, flags, store, [])
    | .awaitingPeriod =>
      (convSet conv (chatId, userId) ConvState.idle, flags, store, [Msg.cancelAck])
  | .text s =>
    match convGet conv (chatId, userId) with
    | .idle => (conv, flags, store, [])
    | .awaitingPeriod =>
      let r := process_period store storeFails nr chatId now s
      (convSet conv (chatId, userId) r.next, flags, store, r.messages)
  | .photo isBot =>
    let r := photo_handler store storeFails isBot chatId userId now
    (conv, flags, r.store, r.messages)

/-! ## Dialog-controller theorems -/

/-- C2: in `AwaitingPeriod`, a reply that does not parse as an integer keeps
the session in `AwaitingPeriod`, sends exactly the "enter a valid number of
days" error, and never queries the store; a reply parsing to a value ≤ 0
keeps the session, sends exactly the "period must be greater than 0" error,
and never queries the store. -/
theorem process_period_invalid_input (store : Store) (storeFails : Bool)
    (nr : Int → Option String) (chatId now : Int) (text : String) :
    (pythonInt text = none →
      process_period store storeFails nr chatId now text =
        ⟨[Msg.invalidNumber], ConvState.awaitingPeriod, false⟩)
  ∧ (∀ d : Int, pythonInt text = some d → d ≤ 0 →
      process_period store storeFails nr chatId now text =
        ⟨[Msg.periodNotPositive], ConvState.awaitingPeriod, false⟩) := by
  refine ⟨fun h => ?_, fun d h hd => ?_⟩
  · simp [process_period, h]
  · simp [process_period, h, hd]

/-- Witness for C2 at the inputs `"abc"` (unparseable) and `"-3"`
(non-positive). -/
theorem process_period_invalid_input_witness :
    process_period [] false (fun _ => none) 1 0 "abc" =
      ⟨[Msg.invalidNumber], ConvState.awaitingPeriod, false⟩
  ∧ process_period [] false (fun _ => none) 1 0 "-3" =
      ⟨[Msg.periodNotPositive], ConvState.awaitingPeriod, false⟩ :=
  ⟨(process_period_invalid_input [] false (fun _ => none) 1 0 "abc").1 (by decide),
   (process_period_invalid_input [] false (fun _ => none) 1 0 "-3").2 (-3)
     (by decide) (by decide)⟩

/-- C3: once the reply parses to a positive integer, `process_period`
returns `ConversationHandler.END` on every path — leaderboard sent, empty
window, or internal error (the catch-all) — so the session never stays in
`AwaitingPeriod` after a valid period. -/
theorem process_period_valid_ends_session (store : Store) (storeFails : Bool)
    (nr : Int → Option String) (chatId now : Int) (text : String) (d : Int)
    (h : pythonInt text = some d) (hd : 0 < d) :
    (process_period store storeFails nr chatId now text).next = ConvState.idle := by
  have hd' : ¬ d ≤ 0 := by omega
  cases storeFails
  · cases he : (topUsers store chatId (now - d * 86400) 5).isEmpty <;>
      simp [process_period, h, hd', he]
  · simp [process_period, h, hd']

unseal List.merge List.mergeSort in
/-- Witness for C3: a valid period over an empty store, a populated store,
and a failing store all end in `Idle`. -/
theorem process_period_valid_ends_session_witness :
    (process_period [] false (fun _ => none) 1 0 "3").next = ConvState.idle
  ∧ (process_period (buildStore [(1, 7, 100)]) false (fun _ => none) 1 86400 "3").next
      = ConvState.idle
  ∧ (process_period [] true (fun _ => none) 1 0 "3").next = ConvState.idle :=
  ⟨process_period_valid_ends_session [] false (fun _ => none) 1 0 "3" 3
     (by decide) (by decide),
   process_period_valid_ends_session (buildStore [(1, 7, 100)]) false
     (fun _ => none) 1 86400 "3" 3 (by decide) (by decide),
   process_period_valid_ends_session [] true (fun _ => none) 1 0 "3" 3
     (by decide) (by decide)⟩

/-- C4: a positive period whose window holds no matching events produces
exactly the "no photos in N days" message carrying the requested period,
the session ends, and the outcome is the normal empty reply, not the
error reply. -/
theorem process_period_empty_window (store : Store)
    (nr : Int → Option String) (chatId now : Int) (text : String) (d : Int)
    (h : pythonInt text = some d) (hd : 0 < d)
    (hempty : topUsers store chatId (now - d * 86400) 5 = []) :
    process_period store false nr chatId now text =
      ⟨[Msg.noPhotos d], ConvState.idle, true⟩ := by
  have hd' : ¬ d ≤ 0 := by omega
  simp [process_period, h, hd', hempty]

unseal List.merge List.mergeSort in
/-- Witness for C4: period 3 over the empty store, and over a store whose
only event lies outside the window. -/
theorem process_period_empty_window_witness :
    process_period [] false (fun _ => none) 1 0 "3" =
      ⟨[Msg.noPhotos 3], ConvState.idle, true⟩
  ∧ process_period (buildStore [(1, 7, 10)]) false (fun _ => none) 1 1000000 "3" =
      ⟨[Msg.noPhotos 3], ConvState.idle, true⟩ :=
  ⟨process_period_empty_window [] (fun _ => none) 1 0 "3" 3
     (by decide) (by decide) (by decide),
   process_period_empty_window (buildStore [(1, 7, 10)]) (fun _ => none) 1
     1000000 "3" 3 (by decide) (by decide) (by decide)⟩

/-- C8: with a positive period and a non-empty window the whole leaderboard
is rendered and sent as one message; each entry's display name comes from
`resolveName`, which keeps the resolved name when the lookup succeeds and
substitutes the fallback label "Пользователь {id}" for exactly the users
whose lookup fails — a failed lookup never aborts the response. -/
theorem leaderboard_name_fallback (store : Store) (nr : Int → Option String)
    (chatId now : Int) (text : String) (d : Int)
    (h : pythonInt text = some d) (hd : 0 < d)
    (hne : topUsers store chatId (now - d * 86400) 5 ≠ []) :
    process_period store false nr chatId now text =
      ⟨[Msg.leaderboard d ((topUsers store chatId (now - d * 86400) 5).enum.map
          (fun p => (p.1 + 1, resolveName nr p.2.1, p.2.2)))],
        ConvState.idle, true⟩
  ∧ (∀ uid : Int, nr uid = none →
      resolveName nr uid = "Пользователь " ++ toString uid)
  ∧ (∀ (uid : Int) (n : String), nr uid = some n → resolveName nr uid = n) := by
  have hd' : ¬ d ≤ 0 := by omega
  have he : (topUsers store chatId (now - d * 86400) 5).isEmpty = false := by
    simpa [List.isEmpty_iff] using hne
  refine ⟨?_, fun uid hu => ?_, fun uid n hn => ?_⟩
  · simp [process_period, h, hd', he]
  · simp [resolveName, hu]
  · simp [resolveName, hn]

unseal List.merge List.mergeSort in
/-- Witness for C8: two ranked users, the resolver succeeds for user 10
("Alice") and fails for user 20, which is rendered with the fallback
label; the full two-entry leaderboard is sent. -/
theorem leaderboard_name_fallback_witness :
    process_period (buildStore [(1, 10, 100), (1, 20, 150)]) false
        (fun u => if u = 10 then some "Alice" else none) 1 259200 "3" =
      ⟨[Msg.leaderboard 3 [(1, "Alice", 1), (2, "Пользователь 20", 1)]],
        ConvState.idle, true⟩ := by
  have := (leaderboard_name_fallback (buildStore [(1, 10, 100), (1, 20, 150)])
    (fun u => if u = 10 then some "Alice" else none) 1 259200 "3" 3
    (by decide) (by decide) (by decide)).1
  rw [this]
  rfl

/-! ## Onboarding-flag theorems -/

theorem dictGet_dictSet_self (d : StartFlags) (c : Int) (b : Bool) :
    dictGet (dictSet d c b) c = some b := by
  induction d with
  | nil => simp [dictSet, dictGet]
  | cons kv rest ih =>
    obtain ⟨k, v⟩ := kv
    by_cases h : k = c <;> simp [dictSet, dictGet, h, ih]

theorem dictGet_dictSet_other (d : StartFlags) (c c' : Int) (b : Bool)
    (h : c' ≠ c) :
    dictGet (dictSet d c b) c' = dictGet d c' := by
  have h' : ¬ c = c' := fun hc => h hc.symm
  induction d with
  | nil => simp [dictSet, dictGet, h']
  | cons kv rest ih =>
    obtain ⟨k, v⟩ := kv
    by_cases hk : k = c
    · subst hk
      simp [dictSet, dictGet, h']
    · simp [dictSet, dictGet, hk, ih]

/-- A chat absent from `start_executed` gets the first greeting and ends
with its flag set. -/
theorem startHandler_first (d : StartFlags) (c : Int) (h : dictGet d c = none) :
    startHandler d c = (Msg.startFirst, dictSet (dictSet d c false) c true) := by
  unfold startHandler
  simp [h, dictGet_dictSet_self]

/-- A chat with a `true` flag gets the already-tracking greeting and the
dict is unchanged. -/
theorem startHandler_already (d : StartFlags) (c : Int)
    (h : dictGet d c = some true) :
    startHandler d c = (Msg.startAgain, d) := by
  unfold startHandler
  simp [h]

/-- After any `start` call the chat's flag is `true`. -/
theorem startHandler_flag_true (d : StartFlags) (c : Int) :
    dictGet (startHandler d c).2 c = some true := by
  unfold startHandler
  cases h : dictGet d c with
  | none => simp [h, dictGet_dictSet_self]
  | some b => cases b <;> simp [h, dictGet_dictSet_self]

/-- A `start` call for another chat does not touch this chat's flag. -/
theorem startHandler_flag_other (d : StartFlags) (c c' : Int) (h : c' ≠ c) :
    dictGet (startHandler d c).2 c' = dictGet d c' := by
  unfold startHandler
  cases hg : dictGet d c with
  | none =>
    simp [hg, dictGet_dictSet_self, dictGet_dictSet_other _ _ _ _ h]
  | some b =>
    cases b <;> simp [hg, dictGet_dictSet_self, dictGet_dictSet_other _ _ _ _ h]

/-- Once the flag is `true`, no later `/start` in the run emits the first
greeting for that chat. -/
theorem runStarts_count_zero (c : Int) :
    ∀ (cs : List Int) (d : StartFlags), dictGet d c = some true →
      (runStarts d cs).countP (fun p => decide (p = (c, Msg.startFirst))) = 0 := by
  intro cs
  induction cs with
  | nil => intro d _; simp [runStarts]
  | cons c' rest ih =>
    intro d h
    by_cases hc : c' = c
    · rw [hc, runStarts, startHandler_already d c h, List.countP_cons]
      simp [ih _ h]
    · rw [runStarts, List.countP_cons]
      have hflag : dictGet (startHandler d c').2 c = some true := by
        rw [startHandler_flag_other d c' c (fun he => hc he.symm)]; exact h
      simp [ih _ hflag, hc]

/-- Over any run of `/start` commands, each chat receives the first
greeting at most once. -/
theorem runStarts_count_le_one (c : Int) :
    ∀ (cs : List Int) (d : StartFlags),
      (runStarts d cs).countP (fun p => decide (p = (c, Msg.startFirst))) ≤ 1 := by
  intro cs
  induction cs with
  | nil => intro d; simp [runStarts]
  | cons c' rest ih =>
    intro d
    by_cases hc : c' = c
    · rw [hc, runStarts, List.countP_cons]
      have h0 : (runStarts (startHandler d c).2 rest).countP
          (fun p => decide (p = (c, Msg.startFirst))) = 0 :=
        runStarts_count_zero c rest _ (startHandler_flag_true d c)
      rw [h0]
      split <;> omega
    · rw [runStarts, List.countP_cons]
      simpa [hc] using ih (startHandler d c').2

/-- C5: a chat not yet in `start_executed` gets the "starting tracking"
greeting and its flag is flipped to `true`; a chat whose flag is `true`
gets the "already tracking" greeting with the dict unchanged; after any
call the flag is `true`; and over every run of `/start` commands from a
fresh process (empty dict) each chat receives the first greeting at most
once. -/
theorem start_greets_once (d : StartFlags) (c : Int) :
    (dictGet d c = none →
      startHandler d c = (Msg.startFirst, dictSet (dictSet d c false) c true))
  ∧ (dictGet d c = some true → startHandler d c = (Msg.startAgain, d))
  ∧ dictGet (startHandler d c).2 c = some true
  ∧ (∀ cs : List Int,
      (runStarts [] cs).countP (fun p => decide (p = (c, Msg.startFirst))) ≤ 1) :=
  ⟨startHandler_first d c, startHandler_already d c, startHandler_flag_true d c,
   fun cs => runStarts_count_le_one c cs []⟩

/-- Witness for C5 at chat 5: fresh dict, already-greeted dict, and the
run `/start; /start` emitting the first greeting once. -/
theorem start_greets_once_witness :
    startHandler [] 5 = (Msg.startFirst, dictSet (dictSet [] 5 false) 5 true)
  ∧ startHandler [(5, true)] 5 = (Msg.startAgain, [(5, true)])
  ∧ (runStarts [] [5, 5]).countP
      (fun p => decide (p = ((5 : Int), Msg.startFirst))) ≤ 1 :=
  ⟨(start_greets_once [] 5).1 (by decide),
   (start_greets_once [(5, true)] 5).2.1 (by decide),
   (start_greets_once [] 5).2.2.2 [5, 5]⟩


/-! ## Store-failure handling -/

/-- Counterexample to C6 as stated: when the photo-event INSERT fails, the
handler sends no message at all to the user — `photo_handler`'s
`except Exception` only logs — so the storage failure is not surfaced as a
user-visible failure message. -/
theorem photo_store_failure_silent :
    photo_handler [] true false 100 7 50 = ⟨[], []⟩ := rfl

/-- C6 amended: the handlers catch storage failures instead of letting them
escape into the dispatch loop; in the dialog read the failure is surfaced
as the generic failure message and the session is terminated; in the photo
insert it is caught and logged only — no user-visible message is sent and
the store is unchanged. -/
theorem store_failure_handling (store : Store) (nr : Int → Option String)
    (chatId userId now : Int) (text : String) (d : Int)
    (h : pythonInt text = some d) (hd : 0 < d) :
    process_period store true nr chatId now text =
      ⟨[Msg.genericError], ConvState.idle, true⟩
  ∧ photo_handler store true false chatId userId now = ⟨[], store⟩ := by
  have hd' : ¬ d ≤ 0 := by omega
  exact ⟨by simp [process_period, h, hd'], by simp [photo_handler]⟩

/-- Witness for the amended C6 at period text `"3"`. -/
theorem store_failure_handling_witness :
    process_period [] true (fun _ => none) 1 3 "3" =
      ⟨[Msg.genericError], ConvState.idle, true⟩
  ∧ photo_handler [] true false 1 2 3 = ⟨[], []⟩ :=
  store_failure_handling [] (fun _ => none) 1 2 3 "3" 3 (by decide) (by decide)

/-! ## Dispatcher / session-supersession -/

theorem convGet_convSet_other (m : ConvMap) (k k' : Int × Int) (s : ConvState)
    (h : k' ≠ k) : convGet (convSet m k s) k' = convGet m k' := by
  have h' : ¬ k = k' := fun he => h he.symm
  induction m with
  | nil => simp [convSet, convGet, h']
  | cons p rest ih =>
    obtain ⟨k0, s0⟩ := p
    by_cases hk : k0 = k
    · subst hk
      simp [convSet, convGet, h']
    · simp [convSet, convGet, hk, ih]

/-- Counterexample to C7 as stated: user 7 of chat 1 has a session in
`AwaitingPeriod`.  A second `/top` from user 7 produces no reply at all —
no new prompt is sent, nothing is superseded, the update is dropped.  A
`/top` from user 8 of the same chat does send a prompt, but it opens a
second simultaneous session under user 8's own key while user 7's pending
session survives untouched — so the pending session is not superseded and
more than one session is active in the chat. -/
theorem top_reentry_counterexample :
    (dispatch [((1, 7), ConvState.awaitingPeriod)] [] [] false (fun _ => none)
        1 7 0 Upd.cmdTop
      = ([((1, 7), ConvState.awaitingPeriod)], [], [], []))
  ∧ (dispatch [((1, 7), ConvState.awaitingPeriod)] [] [] false (fun _ => none)
        1 8 0 Upd.cmdTop
      = ([((1, 7), ConvState.awaitingPeriod), ((1, 8), ConvState.awaitingPeriod)],
         [], [], [Msg.periodPrompt])) :=
  ⟨rfl, rfl⟩

/-- C7 amended: conversations are keyed per (chat, user), and `/top` never
supersedes a pending session.  For the user whose own session is in
`AwaitingPeriod`, `/top` is ignored (the `ConversationHandler` has no
`allow_reentry`): no new prompt, no state change, and that user's next
text answer is honored against the original prompt.  For a user with no
pending session, `/top` opens that user's own session and sends a prompt;
issued by a different user of the same chat this leaves the first user's
pending session untouched, so several sessions — one per user — can be
pending in a chat at once. -/
theorem top_during_dialog_ignored (conv : ConvMap) (flags : StartFlags)
    (store : Store) (storeFails : Bool) (nr : Int → Option String)
    (chatId userId now : Int) (t : String) :
    (convGet conv (chatId, userId) = ConvState.awaitingPeriod →
      dispatch conv flags store storeFails nr chatId userId now Upd.cmdTop
        = (conv, flags, store, []))
  ∧ (convGet conv (chatId, userId) = ConvState.idle →
      dispatch conv flags store storeFails nr chatId userId now Upd.cmdTop
        = (convSet conv (chatId, userId) ConvState.awaitingPeriod, flags, store,
           [Msg.periodPrompt]))
  ∧ (convGet conv (chatId, userId) = ConvState.awaitingPeriod →
      dispatch conv flags store storeFails nr chatId userId now (Upd.text t)
        = (convSet conv (chatId, userId)
             (process_period store storeFails nr chatId now t).next,
           flags, store, (process_period store storeFails nr chatId now t).messages))
  ∧ (∀ userId2 : Int, userId2 ≠ userId →
      convGet (dispatch conv flags store storeFails nr chatId userId2 now
          Upd.cmdTop).1 (chatId, userId)
        = convGet conv (chatId, userId)) := by
  refine ⟨fun h => ?_, fun h => ?_, fun h => ?_, fun u2 hu2 => ?_⟩
  · simp [dispatch, h]
  · simp [dispatch, h]
  · simp [dispatch, h]
  · cases h2 : convGet conv (chatId, u2) with
    | idle =>
      have hne : (chatId, userId) ≠ (chatId, u2) :=
        fun he => hu2 (congrArg Prod.snd he).symm
      simp only [dispatch, h2]
      exact convGet_convSet_other conv (chatId, u2) (chatId, userId)
        ConvState.awaitingPeriod hne
    | awaitingPeriod => simp [dispatch, h2]

/-- Witness for the amended C7: user 7 of chat 1 has the pending session;
user 7's `/top` is dropped, user 8's `/top` prompts and opens a second
session, and user 7's key still reads `AwaitingPeriod` afterwards. -/
theorem top_during_dialog_ignored_witness :
    (dispatch [((1, 7), ConvState.awaitingPeriod)] [] [] false (fun _ => none)
        1 7 0 Upd.cmdTop
      = ([((1, 7), ConvState.awaitingPeriod)], [], [], []))
  ∧ convGet (dispatch [((1, 7), ConvState.awaitingPeriod)] [] [] false
        (fun _ => none) 1 8 0 Upd.cmdTop).1 (1, 7)
      = convGet [((1, 7), ConvState.awaitingPeriod)] (1, 7) :=
  ⟨(top_during_dialog_ignored [((1, 7), ConvState.awaitingPeriod)] [] [] false
      (fun _ => none) 1 7 0 "").1 (by decide),
   (top_during_dialog_ignored [((1, 7), ConvState.awaitingPeriod)] [] [] false
      (fun _ => none) 1 7 0 "").2.2.2 8 (by decide)⟩

/-! ## Schema migration -/

/-- C9: the startup migration adds `chat_id` exactly when it is absent, so
it is idempotent: on a table that already has the column (in particular one
the migration itself produced) it leaves the schema unchanged and the
startup sequence succeeds. -/
theorem migration_idempotent (cols : List String) :
    "chat_id" ∈ migrateCols cols
  ∧ ("chat_id" ∈ cols → migrateCols cols = cols)
  ∧ ("chat_id" ∉ cols → migrateCols cols = cols ++ ["chat_id"])
  ∧ migrateCols (migrateCols cols) = migrateCols cols
  ∧ migrateStartup (some (migrateCols cols)) =
      Except.ok (some (migrateCols cols)) := by
  by_cases h : "chat_id" ∈ cols <;>
    simp [migrateCols, migrateStartup, h]

/-- Witness for C9: a legacy two-column table gains `chat_id`; a migrated
table is left unchanged. -/
theorem migration_idempotent_witness :
    migrateCols ["user_id", "timestamp"] = ["user_id", "timestamp", "chat_id"]
  ∧ migrateCols ["user_id", "timestamp", "chat_id"]
      = ["user_id", "timestamp", "chat_id"] :=
  ⟨(migration_idempotent ["user_id", "timestamp"]).2.2.1 (by decide),
   (migration_idempotent ["user_id", "timestamp", "chat_id"]).2.1 (by decide)⟩

/-! ## NULL chat_id exclusion -/

theorem matchingRows_filter_isSome (s : Store) (c t : Int) :
    matchingRows (s.filter (fun r => r.chat_id.isSome)) c t
      = matchingRows s c t := by
  unfold matchingRows
  rw [List.filter_filter]
  congr 1
  funext r
  cases h : r.chat_id <;> simp [rowMatches, h]

/-- C10: rows whose `chat_id` is SQL `NULL` (the value pre-migration rows
keep) never satisfy `WHERE chat_id = ?`, and the whole aggregate is
unchanged by deleting them — pre-migration events are counted in no chat's
leaderboard. -/
theorem null_chat_rows_excluded (s : Store) (chatId since : Int) (limit : Nat) :
    (∀ r ∈ s, r.chat_id = none → rowMatches chatId since r = false)
  ∧ topUsers s chatId since limit
      = topUsers (s.filter (fun r => r.chat_id.isSome)) chatId since limit := by
  constructor
  · intro r _ hr
    simp [rowMatches, hr]
  · simp only [topUsers, usersAsc, countFor, matchingRows_filter_isSome]

/-- Witness for C10: a store holding one NULL row and one chat-1 row; the
NULL row matches no window and only user 7's chat-1 event is counted. -/
theorem null_chat_rows_excluded_witness :
    rowMatches 1 0 ⟨none, 9, 100⟩ = false :=
  (null_chat_rows_excluded [⟨none, 9, 100⟩, ⟨some 1, 7, 100⟩] 1 0 5).1
    ⟨none, 9, 100⟩ (by simp) rfl

/-! ## Aggregate-query correctness (C1) -/

theorem intLe_trans : ∀ a b c : Int, intLe a b → intLe b c → intLe a c := by
  intro a b c hab hbc
  simp only [intLe, decide_eq_true_eq] at *
  omega

theorem intLe_total : ∀ a b : Int, intLe a b || intLe b a := by
  intro a b
  simp only [intLe, Bool.or_eq_true, decide_eq_true_eq]
  omega

theorem countDescLe_trans : ∀ a b c : Int × Nat,
    countDescLe a b → countDescLe b c → countDescLe a c := by
  intro a b c hab hbc
  simp only [countDescLe, decide_eq_true_eq] at *
  omega

theorem countDescLe_total : ∀ a b : Int × Nat,
    countDescLe a b || countDescLe b a := by
  intro a b
  simp only [countDescLe, Bool.or_eq_true, decide_eq_true_eq]
  omega

/-- Two positions of a list give a two-element sublist. -/
theorem get_pair_sublist {α : Type _} :
    ∀ {l : List α} {i j : Nat} (hi : i < l.length) (hj : j < l.length),
      i < j → List.Sublist [l.get ⟨i, hi⟩, l.get ⟨j, hj⟩] l := by
  intro l
  induction l with
  | nil => intro i j hi hj hij; simp at hi
  | cons x t ih =>
    intro i j hi hj hij
    cases i with
    | zero =>
      cases j with
      | zero => omega
      | succ j' =>
        have hj' : j' < t.length := by simp at hj; omega
        have hsub : List.Sublist [t.get ⟨j', hj'⟩] t :=
          List.singleton_sublist.mpr (t.get_mem j' hj')
        exact List.Sublist.cons₂ x hsub
    | succ i' =>
      cases j with
      | zero => omega
      | succ j' =>
        have hi' : i' < t.length := by simp at hi; omega
        have hj' : j' < t.length := by simp at hj; omega
        simpa using List.Sublist.cons x (ih hi' hj' (by omega))

/-- A two-element sublist comes from two ordered positions. -/
theorem pair_sublist_get {α : Type _} {a b : α} :
    ∀ {l : List α}, List.Sublist [a, b] l →
      ∃ (i j : Nat) (hi : i < l.length) (hj : j < l.length),
        i < j ∧ l.get ⟨i, hi⟩ = a ∧ l.get ⟨j, hj⟩ = b := by
  intro l
  induction l with
  | nil => intro h; simp at h
  | cons x t ih =>
    intro h
    cases h with
    | cons _ h' =>
      obtain ⟨i, j, hi, hj, hij, ha, hb⟩ := ih h'
      exact ⟨i + 1, j + 1, by simpa using hi, by simpa using hj, by omega,
        by simpa using ha, by simpa using hb⟩
    | cons₂ _ h' =>
      have hbt : b ∈ t := List.singleton_sublist.mp h'
      obtain ⟨⟨j, hj⟩, hjb⟩ := List.mem_iff_get.mp hbt
      exact ⟨0, j + 1, by simp, by simpa using hj, by omega, rfl, by simpa using hjb⟩

/-- The group keys are strictly increasing. -/
theorem usersAsc_pairwise_lt (s : Store) (chatId since : Int) :
    (usersAsc s chatId since).Pairwise (· < ·) := by
  unfold usersAsc
  have hs := List.sorted_mergeSort intLe_trans intLe_total
    (((matchingRows s chatId since).map (·.user_id)).dedup)
  have hnd : ((((matchingRows s chatId since).map (·.user_id)).dedup).mergeSort intLe).Nodup :=
    (List.mergeSort_perm _ _).nodup_iff.mpr (List.nodup_dedup _)
  exact (hs.and hnd).imp fun h =>
    lt_of_le_of_ne (by simpa [intLe] using h.1) h.2

/-- The grouped rows are strictly increasing in `user_id`. -/
theorem pairs_pairwise_lt (s : Store) (chatId since : Int) :
    ((usersAsc s chatId since).map
        (fun u => (u, countFor s chatId since u))).Pairwise
      (fun a b => a.1 < b.1) := by
  rw [List.pairwise_map]
  exact (usersAsc_pairwise_lt s chatId since).imp fun h => h

/-- Stability of `ORDER BY count DESC`: sorting rows whose keys are
strictly increasing keeps equal-count rows in ascending key order. -/
theorem mergeSort_tie_order {pairs : List (Int × Nat)}
    (hp : pairs.Pairwise (fun a b => a.1 < b.1)) :
    (pairs.mergeSort countDescLe).Pairwise
      (fun a b => a.2 = b.2 → a.1 < b.1) := by
  have hndp : pairs.Nodup :=
    hp.imp fun h he => by subst he; exact lt_irrefl _ h
  have hnd : (pairs.mergeSort countDescLe).Nodup :=
    (List.mergeSort_perm pairs countDescLe).nodup_iff.mpr hndp
  rw [List.pairwise_iff_get]
  intro i j hij h2
  have hij0 : i.val < j.val := hij
  have hnei : i ≠ j := fun he => by subst he; exact lt_irrefl _ hij0
  have hne : (pairs.mergeSort countDescLe).get i ≠ (pairs.mergeSort countDescLe).get j :=
    fun he => hnei (hnd.get_inj_iff.mp he)
  have hne1 : ((pairs.mergeSort countDescLe).get i).1 ≠
      ((pairs.mergeSort countDescLe).get j).1 :=
    fun h1 => hne (Prod.ext h1 h2)
  rcases lt_or_gt_of_ne hne1 with hlt | hgt
  · exact hlt
  exfalso
  have hAmem : (pairs.mergeSort countDescLe).get i ∈ pairs :=
    List.mem_mergeSort.mp (List.get_mem _ _ _)
  have hBmem : (pairs.mergeSort countDescLe).get j ∈ pairs :=
    List.mem_mergeSort.mp (List.get_mem _ _ _)
  obtain ⟨⟨q, hq⟩, hqA⟩ := List.mem_iff_get.mp hAmem
  obtain ⟨⟨p, hp2⟩, hpB⟩ := List.mem_iff_get.mp hBmem
  have hpq : p < q := by
    rcases Nat.lt_trichotomy p q with h | h | h
    · exact h
    · exfalso
      have hfin : (⟨p, hp2⟩ : Fin pairs.length) = ⟨q, hq⟩ := Fin.ext h
      rw [hfin, hqA] at hpB
      exact hne hpB
    · exfalso
      have := List.pairwise_iff_get.mp hp ⟨q, hq⟩ ⟨p, hp2⟩ h
      rw [hqA, hpB] at this
      omega
  have hsubPairs : List.Sublist [(pairs.mergeSort countDescLe).get j,
      (pairs.mergeSort countDescLe).get i] pairs := by
    have := get_pair_sublist hp2 hq hpq
    rw [hpB, hqA] at this
    exact this
  have hle : countDescLe ((pairs.mergeSort countDescLe).get j)
      ((pairs.mergeSort countDescLe).get i) := by
    simp only [countDescLe, decide_eq_true_eq]
    omega
  have hsubSorted := List.pair_sublist_mergeSort countDescLe_trans
    countDescLe_total hle hsubPairs
  obtain ⟨u, v, hu, hv, huv, hgB, hgA⟩ := pair_sublist_get hsubSorted
  have hvi : (⟨v, hv⟩ : Fin (pairs.mergeSort countDescLe).length) = i :=
    hnd.get_inj_iff.mp (by rw [hgA])
  have huj : (⟨u, hu⟩ : Fin (pairs.mergeSort countDescLe).length) = j :=
    hnd.get_inj_iff.mp (by rw [hgB])
  have h1 : v = i.val := congrArg Fin.val hvi
  have h2' : u = j.val := congrArg Fin.val huj
  omega

/-- C1: for every sequence of `recordPhoto` calls and every chat id,
since-timestamp (and the fixed LIMIT 5), each listed user's count equals
the number of that user's stored events matching the chat and window, the
list is ordered descending by count, holds at most 5 entries, and ties are
deterministically ordered: equal counts appear in ascending user id (the
stable order the grouped rows arrive in). -/
theorem topUsers_correct (evs : List (Int × Int × Int)) (chatId since : Int) :
    (∀ p ∈ topUsers (buildStore evs) chatId since 5,
      p.2 = countFor (buildStore evs) chatId since p.1)
  ∧ (topUsers (buildStore evs) chatId since 5).Pairwise (fun a b => b.2 ≤ a.2)
  ∧ (topUsers (buildStore evs) chatId since 5).length ≤ 5
  ∧ (topUsers (buildStore evs) chatId since 5).Pairwise
      (fun a b => a.2 = b.2 → a.1 < b.1) := by
  refine ⟨?_, ?_, ?_, ?_⟩
  · intro p hp
    simp only [topUsers] at hp
    obtain ⟨u, _, he⟩ := List.mem_map.mp
      (List.mem_mergeSort.mp ((List.take_sublist _ _).subset hp))
    rw [← he]
  · have hs := List.sorted_mergeSort countDescLe_trans countDescLe_total
      ((usersAsc (buildStore evs) chatId since).map
        (fun u => (u, countFor (buildStore evs) chatId since u)))
    simp only [topUsers]
    exact (List.Pairwise.sublist (List.take_sublist _ _) hs).imp
      fun h => by simpa [countDescLe] using h
  · simp only [topUsers]
    exact List.length_take_le _ _
  · simp only [topUsers]
    exact List.Pairwise.sublist (List.take_sublist _ _)
      (mergeSort_tie_order (pairs_pairwise_lt (buildStore evs) chatId since))

unseal List.merge List.mergeSort in
/-- Witness for C1: the store built from four `recordPhoto` calls in chat
100 (user 1 twice, users 2 and 3 once); the aggregate lists user 1 first
with count 2, the tied users 2 and 3 follow in ascending id order, and the
count reported for user 1 is exactly its matching-event count. -/
theorem topUsers_correct_witness :
    topUsers (buildStore [(100, 1, 10), (100, 2, 5), (100, 1, 20), (100, 3, 5)])
        100 0 5 = [(1, 2), (2, 1), (3, 1)]
  ∧ (2 : Nat) = countFor
      (buildStore [(100, 1, 10), (100, 2, 5), (100, 1, 20), (100, 3, 5)]) 100 0 1
  ∧ (topUsers (buildStore [(100, 1, 10), (100, 2, 5), (100, 1, 20), (100, 3, 5)])
        100 0 5).length ≤ 5 :=
  ⟨by decide,
   (topUsers_correct [(100, 1, 10), (100, 2, 5), (100, 1, 20), (100, 3, 5)]
      100 0).1 (1, 2) (by decide),
   (topUsers_correct [(100, 1, 10), (100, 2, 5), (100, 1, 20), (100, 3, 5)]
      100 0).2.2.1⟩
